import Mathlib

/-!
# Verification of the authentication/session-token lifecycle

Shallow embedding of the authentication core of the `youtube-redesign-backend`
repository: the user controller (`registerUser`, `loginUser`, `logoutUser`,
`refreshAccessToken`, `currentPasswordChange`, `getCurrentUser`), the JWT
middleware (`verifyJWT`), the `User` model's pre-save hashing hook and
instance methods, and the `ApiError` wrapper.

Modelling conventions, stated once:

* JavaScript `throw new ApiError(...)` inside an `asyncHandler`-wrapped
  handler is modelled as `Except.error`; handlers that mutate the store
  return the post-call store alongside the outcome so that frame
  properties ("store unchanged") are statable.
* A signed JWT is modelled by the record of inputs that determine its
  compact serialization: payload fields, signing secret, issued-at and
  expiry claims.  Two signatures over identical inputs give identical
  strings, so structural equality models string equality of tokens.
* `bcrypt` is an external collaborator; it is modelled by a tagging
  function (`bcryptHash`) with `bcrypt.compare p h  ↔  h = bcryptHash p`.
  No claim depends on one-wayness of the hash.
* `undefined`/absent JavaScript values are `Option.none`; JavaScript
  string falsiness (`!s`): `none` or the empty string.
* Times (`iat`/`exp` claims, the `updatedAt` timestamp) are `Nat`; each
  operation receives the current time `now` as a parameter.
-/

/-- Structured error object from `src/utils/ApiError.js`: status code and
message (the `errors` detail list and stack are never populated by the
authentication handlers and are omitted). -/
structure ApiError where
  statusCode : Nat
  message : String
deriving DecidableEq, Repr

/-- Payload of a refresh token, from `userSchema.methods.generateRefreshToken`:
only the account id. -/
structure RefreshPayload where
  _id : Nat
deriving DecidableEq, Repr

/-- A signed refresh JWT: `jwt.sign({_id}, REFRESH_TOKEN_SECRET,
{expiresIn})`.  The record of signing inputs stands for the serialized
token string; `iat` is the issued-at claim (signing time). -/
structure RToken where
  uid : Nat
  secret : String
  iat : Nat
  exp : Nat
deriving DecidableEq, Repr

/-- A signed access JWT: `jwt.sign({_id, email, username, fullName},
ACCESS_TOKEN_SECRET, {expiresIn})`. -/
structure AToken where
  uid : Nat
  email : String
  username : String
  fullName : String
  secret : String
  iat : Nat
  exp : Nat
deriving DecidableEq, Repr

/-- Environment configuration read from `process.env` by the model methods:
the two token secrets and expiries. -/
structure Env where
  accessSecret : String
  refreshSecret : String
  accessTtl : Nat
  refreshTtl : Nat
deriving DecidableEq, Repr

/-- Errors thrown by `jwt.verify`, with the `message` the catch blocks
forward into `ApiError(401, error?.message)`. -/
inductive JwtError where
  | invalidSignature
  | expired
deriving DecidableEq, Repr

def JwtError.message : JwtError → String
  | .invalidSignature => "invalid signature"
  | .expired => "jwt expired"

/-- `jwt.verify(token, REFRESH_TOKEN_SECRET)`: succeeds with the decoded
payload iff the token was signed with the given secret and is not yet
expired at `now`. -/
def jwtVerifyRefreshToken (t : RToken) (secret : String) (now : Nat) :
    Except JwtError RefreshPayload :=
  if t.secret ≠ secret then .error .invalidSignature
  else if t.exp ≤ now then .error .expired
  else .ok ⟨t.uid⟩

/-- Modelled collaborator `bcrypt.hash(p, 10)` (Password Hasher). -/
def bcryptHash (p : String) : String := "bcrypt$" ++ p

/-- Modelled collaborator `bcrypt.compare(p, h)`, used by
`userSchema.methods.verifyPassword`. -/
def bcryptCompare (p h : String) : Bool := h == bcryptHash p

/-- An `Account` document of the `User` collection, fields from
`src/models/user.model.js` that the authentication core touches
(`role` and `watchHistory` are never read or written by it). -/
structure Account where
  id : Nat
  username : String
  email : String
  fullName : String
  password : String
  avatar : String
  coverImage : String
  refreshToken : Option RToken
  createdAt : Nat
  updatedAt : Nat
deriving DecidableEq, Repr

/-- The Credential Store: the `User` collection. -/
abbrev Store := List Account

/-- `User.findById(id)`. -/
def findById (st : Store) (i : Nat) : Option Account :=
  st.find? (fun a => a.id == i)

/-- Persisting a document: replaces the stored document with the same id. -/
def updateById (st : Store) (a : Account) : Store :=
  st.map (fun b => if b.id == a.id then a else b)

/-- `user.save(...)` together with the `userSchema.pre("save")` hook: the
hook re-hashes the password only when the `password` path was modified
relative to the loaded document `orig`; mongoose `timestamps` bump
`updatedAt` on every save. -/
def saveUser (st : Store) (orig modified : Account) (now : Nat) : Store :=
  let hashed :=
    if modified.password ≠ orig.password then
      { modified with password := bcryptHash modified.password }
    else modified
  updateById st { hashed with updatedAt := now }

/-- `userSchema.methods.generateAccessToken`. -/
def generateAccessToken (a : Account) (env : Env) (now : Nat) : AToken :=
  { uid := a.id, email := a.email, username := a.username,
    fullName := a.fullName, secret := env.accessSecret,
    iat := now, exp := now + env.accessTtl }

/-- `userSchema.methods.generateRefreshToken`. -/
def generateRefreshToken (a : Account) (env : Env) (now : Nat) : RToken :=
  { uid := a.id, secret := env.refreshSecret, iat := now,
    exp := now + env.refreshTtl }

/-- `generateAccessAndRefreshToken(userId)` from the user controller:
finds the user, mints both tokens, stores the refresh token on the user
and saves.  `saveOk` injects the Credential Store's write outcome; any
exception inside the body (user `null`, store write failure) is caught
and rethrown as `ApiError(500, "Something went wrong while generating
tokens")`. -/
def generateAccessAndRefreshToken (env : Env) (st : Store) (now : Nat)
    (saveOk : Bool) (userId : Nat) :
    Except ApiError (AToken × RToken × Store) :=
  match findById st userId with
  | none => .error ⟨500, "Something went wrong while generating tokens"⟩
  | some user =>
    let accessToken := generateAccessToken user env now
    let refreshToken := generateRefreshToken user env now
    let user2 := { user with refreshToken := some refreshToken }
    if saveOk then .ok (accessToken, refreshToken, saveUser st user user2 now)
    else .error ⟨500, "Something went wrong while generating tokens"⟩

/-! ## Document projection (`.select("-password -refreshToken")`) -/

/-- Rendering of the stored refresh-token field into the serialized
document (value is irrelevant to every claim; only field keys matter). -/
def rtokenFieldValue : Option RToken → String
  | none => "undefined"
  | some t =>
    "rt." ++ toString t.uid ++ "." ++ t.secret ++ "." ++ toString t.iat
      ++ "." ++ toString t.exp

/-- Serialized compact form of a signed access token (cookie value). -/
def serializeAToken (t : AToken) : String :=
  "at." ++ toString t.uid ++ "." ++ t.email ++ "." ++ t.username ++ "."
    ++ t.fullName ++ "." ++ t.secret ++ "." ++ toString t.iat ++ "."
    ++ toString t.exp

/-- Serialized compact form of a signed refresh token (cookie value). -/
def serializeRToken (t : RToken) : String := rtokenFieldValue (some t)

/-- The full serialized `User` document: field name/value pairs. -/
def Account.toDoc (a : Account) : List (String × String) :=
  [("_id", toString a.id),
   ("username", a.username),
   ("email", a.email),
   ("fullName", a.fullName),
   ("avatar", a.avatar),
   ("coverImage", a.coverImage),
   ("password", a.password),
   ("refreshToken", rtokenFieldValue a.refreshToken),
   ("createdAt", toString a.createdAt),
   ("updatedAt", toString a.updatedAt)]

/-- Splitting a character list on spaces (accumulator holds the current
entry reversed). -/
def splitOnSpacesAux (cur : List Char) : List Char → List (List Char)
  | [] => [cur.reverse]
  | c :: cs =>
    if c = ' ' then cur.reverse :: splitOnSpacesAux [] cs
    else splitOnSpacesAux (c :: cur) cs

/-- Field names excluded by a mongoose selection string such as
`"-password -refreshToken"`: space-separated entries, each with its
leading exclusion dash dropped. -/
def selectExcludedFields (spec : String) : List String :=
  (splitOnSpacesAux [] spec.data).map (fun s => String.mk (s.drop 1))

/-- `.select(spec)` on a document: drops the excluded fields. -/
def selectDoc (doc : List (String × String)) (spec : String) :
    List (String × String) :=
  doc.filter (fun kv => !((selectExcludedFields spec).contains kv.1))

/-! ## JavaScript helpers -/

/-- JavaScript string falsiness for an optional value: `undefined` or `""`. -/
def jsFalsy : Option String → Bool
  | none => true
  | some s => s == ""

/-- Leading-whitespace removal on a character list. -/
def dropLeadingSpaces : List Char → List Char
  | [] => []
  | c :: cs => if c.isWhitespace then dropLeadingSpaces cs else c :: cs

/-- JavaScript `String.prototype.trim`: whitespace removed from both
ends. -/
def jsTrim (s : String) : String :=
  ⟨(dropLeadingSpaces (dropLeadingSpaces s.data).reverse).reverse⟩

/-- `registerUser`'s per-field emptiness test `field?.trim() === ""`:
`undefined?.trim()` is `undefined`, and `undefined === ""` is `false`,
so an absent field never satisfies the test. -/
def fieldEmptyAfterTrim : Option String → Bool
  | some s => jsTrim s == ""
  | none => false

/-- First-occurrence substring replacement on character lists (JavaScript
`String.prototype.replace` with a string pattern). -/
def replaceFirstList (pat rep : List Char) : List Char → List Char
  | [] => if pat.isPrefixOf ([] : List Char) then rep else []
  | c :: cs =>
    if pat.isPrefixOf (c :: cs) then rep ++ (c :: cs).drop pat.length
    else c :: replaceFirstList pat rep cs

/-- JavaScript `s.replace(pat, rep)` with a plain-string pattern:
replaces the first occurrence only. -/
def jsReplaceFirst (s pat rep : String) : String :=
  ⟨replaceFirstList pat.data rep.data s.data⟩

/-! ## Session Manager handlers -/

/-- Request body of `loginUser`. -/
structure LoginReq where
  email : Option String
  username : Option String
  password : Option String
deriving DecidableEq, Repr

/-- `User.findOne({ $or: [{ username }, { email }] })` as issued by
`loginUser`: first document matching the present identifier(s). -/
def findUserByUsernameOrEmail (st : Store) (username email : Option String) :
    Option Account :=
  st.find? (fun a =>
    (match username with | some s => a.username == s | none => false) ||
    (match email with | some s => a.email == s | none => false))

/-- Successful `loginUser` response: status, the two `httpOnly; secure`
cookies, the projected user document, both tokens and the message. -/
structure LoginOk where
  status : Nat
  cookies : List (String × String)
  user : List (String × String)
  accessToken : AToken
  refreshToken : RToken
  message : String
deriving DecidableEq, Repr

/-- `loginUser` from the user controller.  Returns the outcome together
with the post-call store; every error path leaves the store untouched
and sets no cookies (cookies exist only in the success payload). -/
def loginUser (env : Env) (st : Store) (now : Nat) (saveOk : Bool)
    (req : LoginReq) : Except ApiError LoginOk × Store :=
  if (jsFalsy req.username && jsFalsy req.email) || jsFalsy req.password then
    (.error ⟨400, "Username or email and password are required"⟩, st)
  else
    match findUserByUsernameOrEmail st req.username req.email with
    | none => (.error ⟨404, "User does not exist"⟩, st)
    | some user =>
      if !bcryptCompare (req.password.getD "") user.password then
        (.error ⟨401, "Incorrect password"⟩, st)
      else
        match generateAccessAndRefreshToken env st now saveOk user.id with
        | .error e => (.error e, st)
        | .ok (accessToken, refreshToken, st2) =>
          let loggedInUser :=
            match findById st2 user.id with
            | some u => selectDoc u.toDoc "-password -refreshToken"
            | none => []
          (.ok { status := 200,
                 cookies := [("accessToken", serializeAToken accessToken),
                             ("refreshToken", serializeRToken refreshToken)],
                 user := loggedInUser,
                 accessToken := accessToken,
                 refreshToken := refreshToken,
                 message := "User logged in successfully" }, st2)

/-- `logoutUser`: `User.findByIdAndUpdate(id, { $set: { refreshToken:
undefined } })`.  The update is modelled as clearing the stored
refresh-token field (the code's stated intent: "update the refresh token
to undefined"); mongoose timestamps bump `updatedAt`.  Without `{ new:
true }` the call returns the pre-update document, or `null` when the
account does not exist, in which case nothing is written and the handler
throws a 500. -/
def logoutUser (st : Store) (now : Nat) (userId : Nat) :
    Except ApiError Unit × Store :=
  match findById st userId with
  | none => (.error ⟨500, "Something went wrong while logging out"⟩, st)
  | some user =>
    (.ok (), updateById st { user with refreshToken := none, updatedAt := now })

/-- Request carrying the presented refresh token: `req.cookies.refreshToken
|| req.body.refreshToken`. -/
structure RefreshReq where
  cookieRefreshToken : Option RToken
  bodyRefreshToken : Option RToken
deriving DecidableEq, Repr

/-- Body of `refreshAccessToken`'s `try` block.  Errors carry the thrown
error's `message` (the only part the `catch` forwards): `jwt.verify`
failures, the three in-line `ApiError(401, ...)` throws — the `if
(!decodedToken)` guard is unreachable because `jwt.verify` throws rather
than returning a falsy payload — and the `ApiError(500, ...)` thrown by
`generateAccessAndRefreshToken` on a store failure. -/
def refreshTryBlock (env : Env) (st : Store) (now : Nat) (saveOk : Bool)
    (incoming : RToken) : Except String (AToken × RToken × Store) :=
  match jwtVerifyRefreshToken incoming env.refreshSecret now with
  | .error e => .error e.message
  | .ok payload =>
    match findById st payload._id with
    | none => .error "User not found"
    | some user =>
      if some incoming ≠ user.refreshToken then
        .error "Refresh token is expired or used"
      else
        match generateAccessAndRefreshToken env st now saveOk user.id with
        | .error e => .error e.message
        | .ok r => .ok r

/-- `refreshAccessToken` from the user controller.  The missing-token
check sits outside the `try`; every error raised inside the `try` is
rethrown by the `catch` as `ApiError(401, error?.message)` — including
the internal 500 from token generation, whose status code is discarded
and replaced by 401. -/
def refreshAccessToken (env : Env) (st : Store) (now : Nat) (saveOk : Bool)
    (req : RefreshReq) : Except ApiError (AToken × RToken × Store) :=
  match req.cookieRefreshToken.orElse (fun _ => req.bodyRefreshToken) with
  | none => .error ⟨401, "Unauthorized request"⟩
  | some incoming =>
    match refreshTryBlock env st now saveOk incoming with
    | .error m => .error ⟨401, m⟩
    | .ok r => .ok r

/-! ## Password change -/

/-- A Credential Store access, recorded so that "no store read or write
is performed" is statable. -/
inductive StoreOp where
  | read (id : Nat)
  | write (id : Nat)
deriving DecidableEq, Repr

/-- Request body of `currentPasswordChange`. -/
structure ChangePwReq where
  oldPassword : Option String
  newPassword : Option String
deriving DecidableEq, Repr

/-- `currentPasswordChange` from the user controller, for the
authenticated account `userId` (`req.user._id`).  Returns the outcome,
the post-call store, and the trace of Credential Store accesses the call
performed.  When the account lookup returns `null` the subsequent
`user.verifyPassword` dereference raises an uncaught `TypeError`
(surfaced as a 500 by the framework's default error handling). -/
def currentPasswordChange (st : Store) (now : Nat) (userId : Nat)
    (req : ChangePwReq) : Except ApiError Unit × Store × List StoreOp :=
  if jsFalsy req.oldPassword || jsFalsy req.newPassword then
    (.error ⟨400, "Old password and new password are required"⟩, st, [])
  else if req.oldPassword = req.newPassword then
    (.error ⟨400, "Old password and new password are the same"⟩, st, [])
  else
    match findById st userId with
    | none =>
      (.error ⟨500, "Cannot read properties of null"⟩, st, [.read userId])
    | some user =>
      if !bcryptCompare (req.oldPassword.getD "") user.password then
        (.error ⟨400, "Invalid old password"⟩, st, [.read userId])
      else
        (.ok (),
         saveUser st user { user with password := req.newPassword.getD "" } now,
         [.read userId, .write userId])

/-! ## Request Authenticator (`verifyJWT`) and `getCurrentUser` -/

/-- Inbound request as seen by `verifyJWT`: the `accessToken` cookie and
the raw `Authorization` header, both optional. -/
structure AuthReq where
  cookieAccessToken : Option String
  authorizationHeader : Option String
deriving DecidableEq, Repr

/-- `req.cookies?.accessToken || req.header("Authorization")?.replace("Bearer ", "")`:
the cookie when truthy, otherwise the header (when present) with its
first `"Bearer "` occurrence removed.  JavaScript `||` returns the
right operand's value even when that value is itself falsy. -/
def extractToken (req : AuthReq) : Option String :=
  match req.cookieAccessToken with
  | some c =>
    if c == "" then
      req.authorizationHeader.map (fun h => jsReplaceFirst h "Bearer " "")
    else some c
  | none => req.authorizationHeader.map (fun h => jsReplaceFirst h "Bearer " "")

/-- Decoded access-token payload as used by `verifyJWT` (`decodedToken?._id`). -/
structure AccessPayload where
  _id : Nat
deriving DecidableEq, Repr

/-- The request after `verifyJWT` attached the resolved identity:
`req.user`, the account document with password and refresh token
projected away. -/
structure AuthedRequest where
  user : List (String × String)
deriving DecidableEq, Repr

/-- `try` block of `verifyJWT`; errors carry the thrown message.
`jwt.verify(token, ACCESS_TOKEN_SECRET)` is the injected collaborator
`dec` operating on the serialized credential string. -/
def verifyJWTTryBlock (dec : String → Except String AccessPayload)
    (st : Store) (req : AuthReq) : Except String AuthedRequest :=
  match extractToken req with
  | none => .error "Unauthorized request"
  | some tok =>
    if tok == "" then .error "Unauthorized request"
    else
      match dec tok with
      | .error m => .error m
      | .ok payload =>
        match findById st payload._id with
        | none => .error "Invalid Access Token"
        | some user => .ok ⟨selectDoc user.toDoc "-password -refreshToken"⟩

/-- `verifyJWT` middleware (auth.middleware): the whole body sits in a
`try` whose `catch` rethrows as `ApiError(401, error?.message)`. -/
def verifyJWT (dec : String → Except String AccessPayload) (st : Store)
    (req : AuthReq) : Except ApiError AuthedRequest :=
  match verifyJWTTryBlock dec st req with
  | .error m => .error ⟨401, m⟩
  | .ok r => .ok r

/-- Standard response envelope from `src/utils/ApiResponse.js`. -/
structure ApiResponseData where
  statusCode : Nat
  data : List (String × String)
  message : String
  success : Bool
deriving DecidableEq, Repr

def mkApiResponse (statusCode : Nat) (data : List (String × String))
    (message : String) : ApiResponseData :=
  ⟨statusCode, data, message, decide (statusCode < 400)⟩

/-- `getCurrentUser`: returns `req.user` as attached by `verifyJWT`. -/
def getCurrentUser (req : AuthedRequest) : ApiResponseData :=
  mkApiResponse 200 req.user "Current user fetched successfully"

/-- Field names of the user object a `loginUser` call returns (empty when
the call fails and returns no user object). -/
def loginUserKeys (env : Env) (st : Store) (now : Nat) (saveOk : Bool)
    (req : LoginReq) : List String :=
  match (loginUser env st now saveOk req).1 with
  | .ok r => r.user.map Prod.fst
  | .error _ => []

/-- Field names of the identity `getCurrentUser` returns behind
`verifyJWT` (empty when the gate rejects the request). -/
def currentUserKeys (dec : String → Except String AccessPayload)
    (st : Store) (req : AuthReq) : List String :=
  match verifyJWT dec st req with
  | .ok vr => (getCurrentUser vr).data.map Prod.fst
  | .error _ => []

/-! ## Registration -/

/-- Stages of `registerUser` reached by a call, recorded so that "the
request proceeds to the duplicate-account lookup and account creation"
is statable. -/
inductive RegStep where
  | validate
  | dupLookup
  | createAttempt
deriving DecidableEq, Repr

/-- Request of `registerUser`: body fields plus the locally stored upload
paths `req.files.avatar[0].path` / `req.files.coverImage[0].path`. -/
structure RegisterReq where
  username : Option String
  email : Option String
  password : Option String
  fullName : Option String
  avatarLocalPath : Option String
  coverImageLocalPath : Option String
deriving DecidableEq, Repr

/-- `User.findOne({ $or: [{ email }, { username }] })` as issued by
`registerUser` (duplicate-account lookup). -/
def findExistingUser (st : Store) (email username : Option String) :
    Option Account :=
  st.find? (fun a =>
    (match email with | some s => a.email == s | none => false) ||
    (match username with | some s => a.username == s | none => false))

/-- Fresh document id for `User.create`. -/
def nextId (st : Store) : Nat :=
  st.foldr (fun a m => max a.id m) 0 + 1

/-- Outcome of `registerUser`'s post-create re-read: `User.findById` on
the newly created document, projected without password/refresh token; a
failed re-read is the handler's own 500. -/
def createUserResult (st2 : Store) (created : Account) :
    Except ApiError (List (String × String)) :=
  match findById st2 created.id with
  | none => .error ⟨500, "Something went wrong while registering the user"⟩
  | some u => .ok (selectDoc u.toDoc "-password -refreshToken")

/-- `registerUser` from the user controller.  `cloud` is the
`uploadOnCloudinary` collaborator (upload result URL, or `null` on
failure or absent path).  Returns the outcome (the projected created
document on success), the post-call store, and the stages reached.
At the `User.create` step, an absent `username` makes
`username.toLowerCase()` raise an uncaught `TypeError`, and an absent
`email`/`fullName`/`password` fails the schema's `required` validators;
both surface as framework-level 500s, not as the handler's own 400. -/
def registerUser (st : Store) (cloud : String → Option String) (now : Nat)
    (req : RegisterReq) :
    Except ApiError (List (String × String)) × Store × List RegStep :=
  if [req.fullName, req.email, req.username, req.password].any
      fieldEmptyAfterTrim then
    (.error ⟨400, "All fields are required"⟩, st, [.validate])
  else
    match findExistingUser st req.email req.username with
    | some _ =>
      (.error ⟨409, "User with the same email or username already exists"⟩,
       st, [.validate, .dupLookup])
    | none =>
      let avatar := req.avatarLocalPath.bind cloud
      let coverImage := req.coverImageLocalPath.bind cloud
      match req.username with
      | none =>
        (.error ⟨500, "Cannot read properties of undefined"⟩, st,
         [.validate, .dupLookup, .createAttempt])
      | some un =>
        match req.email, req.fullName, req.password with
        | some em, some fn, some pw =>
          let created : Account :=
            { id := nextId st,
              username := un.toLower,
              email := em,
              fullName := fn,
              password := bcryptHash pw,
              avatar := avatar.getD "",
              coverImage := coverImage.getD "",
              refreshToken := none,
              createdAt := now,
              updatedAt := now }
          let st2 := st ++ [created]
          (createUserResult st2 created, st2,
           [.validate, .dupLookup, .createAttempt])
        | _, _, _ =>
          (.error ⟨500, "User validation failed"⟩, st,
           [.validate, .dupLookup, .createAttempt])


/-! ## Outcome helpers and concrete example inputs -/

deriving instance DecidableEq for Except

/-- Status code of a failed outcome (`none` on success). -/
def errorStatus {α : Type} : Except ApiError α → Option Nat
  | .error e => some e.statusCode
  | .ok _ => none

/-- Example environment. -/
def envW : Env := ⟨"access-secret", "refresh-secret", 10, 100⟩

/-- Example refresh token stored for account 1, minted at time 0. -/
def t1W : RToken := ⟨1, "refresh-secret", 0, 50⟩

/-- Example account in the `Authenticated` state. -/
def uW : Account :=
  { id := 1, username := "u1", email := "u1@x.com", fullName := "User One",
    password := bcryptHash "pw1", avatar := "", coverImage := "",
    refreshToken := some t1W, createdAt := 0, updatedAt := 0 }

/-- Example store holding the one account. -/
def stW : Store := [uW]

/-- Example access-token decode collaborator: exactly one credential
string, `"tok1"`, decodes to account 1. -/
def decW : String → Except String AccessPayload :=
  fun s => if s == "tok1" then .ok ⟨1⟩ else .error "invalid signature"

/-- Example Cloudinary collaborator: every upload fails (returns null). -/
def cloudW : String → Option String := fun _ => none

/-- Example `registerUser` request with the `username` field entirely
absent and all other required fields present and non-empty. -/
def regReqW : RegisterReq :=
  { username := none, email := some "new@x.com", password := some "pw2",
    fullName := some "New User", avatarLocalPath := none,
    coverImageLocalPath := none }

/-- Refresh token for account 1 whose issued-at claim is the very
instant (time 3) at which the rotation below re-signs: with
`envW.refreshTtl = 100` its expiry is `3 + 100`, so its signing inputs
coincide with those of the token minted by a refresh at time 3. -/
def t1C : RToken := ⟨1, "refresh-secret", 3, 103⟩

/-- Account 1 holding `t1C` as its stored refresh token. -/
def uC : Account := { uW with refreshToken := some t1C }

/-- Store for the same-instant rotation counterexample. -/
def stC : Store := [uC]

/-! ## Supporting lemmas -/

theorem findById_id_eq {st : Store} {i : Nat} {u : Account}
    (h : findById st i = some u) : u.id = i := by
  have := List.find?_some h
  simpa using this

theorem findById_updateById_self {st : Store} {i : Nat} {u : Account}
    (a : Account) (hfind : findById st i = some u) (hid : a.id = i) :
    findById (updateById st a) i = some a := by
  induction st with
  | nil => simp [findById] at hfind
  | cons b rest ih =>
    by_cases hb : b.id = i
    · have hba : (b.id == a.id) = true := by simp [hb, hid]
      simp only [updateById, List.map_cons, hba, if_true]
      simp [findById, List.find?, hid]
    · have hbeq : (b.id == i) = false := by simp [hb]
      have hba : (b.id == a.id) = false := by simp [hid ▸ hb]
      have h1 : findById rest i = some u := by
        simpa only [findById, List.find?, hbeq] using hfind
      have h2 := ih h1
      simp only [findById, updateById, List.map_cons] at h2 ⊢
      simp only [hba, Bool.false_eq_true, if_false, List.find?, hbeq]
      exact h2

theorem isPrefixOf_append_self : ∀ (l r : List Char),
    l.isPrefixOf (l ++ r) = true
  | [], _ => List.isPrefixOf_nil_left
  | c :: cs, r => by
    simp [List.isPrefixOf, isPrefixOf_append_self cs r]

theorem replaceFirstList_self_append (pat rep rest : List Char) :
    replaceFirstList pat rep (pat ++ rest) = rep ++ rest := by
  match pat with
  | [] =>
    cases rest with
    | nil => simp [replaceFirstList, List.isPrefixOf]
    | cons c cs => simp [replaceFirstList, List.isPrefixOf]
  | p :: ps =>
    rw [List.cons_append]
    simp only [replaceFirstList]
    rw [if_pos (by rw [← List.cons_append]; exact isPrefixOf_append_self (p :: ps) rest)]
    rw [← List.cons_append, List.drop_left]

theorem jsReplaceFirst_strips_bearer (t : String) :
    jsReplaceFirst ("Bearer " ++ t) "Bearer " "" = t := by
  unfold jsReplaceFirst
  rw [String.data_append, replaceFirstList_self_append]
  show String.mk t.data = t
  cases t
  rfl

theorem selectDoc_not_mem_excluded (doc : List (String × String))
    (spec : String) (k : String) (hk : k ∈ selectExcludedFields spec) :
    k ∉ (selectDoc doc spec).map Prod.fst := by
  intro hmem
  simp only [selectDoc, List.mem_map, List.mem_filter] at hmem
  obtain ⟨kv, ⟨_, hfilter⟩, hfst⟩ := hmem
  rw [hfst] at hfilter
  simp only [Bool.not_eq_true'] at hfilter
  have hcont : (selectExcludedFields spec).contains k = true := by
    simpa [List.contains] using List.elem_eq_true_of_mem hk
  rw [hfilter] at hcont
  cases hcont

theorem createUserResult_ne_all_fields_error (st2 : Store) (a : Account)
    (h : createUserResult st2 a =
      .error ⟨400, "All fields are required"⟩) : False := by
  unfold createUserResult at h
  split at h <;> simp at h

/-! ## Claim theorems -/

/-- C1 counterexample: rotation at the very instant the consumed token
was signed does not invalidate it.  `jwt.sign` is deterministic, so a
refresh whose signing time equals `t1`'s issued-at claim (same payload,
secret and TTL) re-issues `t1` itself: the call succeeds, the "new"
refresh token equals `t1`, and a subsequent refresh presenting `t1`
again succeeds instead of failing with the claimed `ApiError(401,
"Refresh token is expired or used")`. -/
theorem refresh_rotation_same_instant_not_invalidated :
    refreshAccessToken envW stC 3 true ⟨some t1C, none⟩ =
      .ok (generateAccessToken uC envW 3, t1C,
        updateById stC { uC with refreshToken := some t1C, updatedAt := 3 })
    ∧ generateRefreshToken uC envW 3 = t1C
    ∧ errorStatus
        (refreshAccessToken envW
          (updateById stC { uC with refreshToken := some t1C, updatedAt := 3 })
          4 true ⟨some t1C, none⟩) = none
    ∧ refreshAccessToken envW
        (updateById stC { uC with refreshToken := some t1C, updatedAt := 3 })
        4 true ⟨some t1C, none⟩
      ≠ .error ⟨401, "Refresh token is expired or used"⟩ := by
  decide

/-- C1 (amended): refresh rotation invalidates the consumed token
provided the rotation signs at a different instant than the consumed
token's minting.  For every account and refresh token `t1` that passes
`refreshAccessToken`'s checks (signature valid and unexpired at `now`,
account found, `t1` equal to the stored refresh token) with a
succeeding store write, and whose issued-at claim differs from the
rotation call's signing time `now` (without this, deterministic signing
re-issues `t1` itself — see the counterexample above), the call
succeeds, the newly minted refresh token differs from `t1`, the stored
refresh token is overwritten with the new one, and a subsequent
`refreshAccessToken` call presenting `t1` — with `t1`'s signature still
valid and `t1` still unexpired at `now2` — fails with
`ApiError(401, "Refresh token is expired or used")`. -/
theorem refresh_rotation_invalidates_used_token
    (env : Env) (st : Store) (now now2 : Nat) (so2 : Bool)
    (u : Account) (t1 : RToken)
    (hfind : findById st t1.uid = some u)
    (hstored : u.refreshToken = some t1)
    (hsec : t1.secret = env.refreshSecret)
    (hexp : now < t1.exp)
    (hiat : t1.iat ≠ now)
    (hexp2 : now2 < t1.exp) :
    refreshAccessToken env st now true ⟨some t1, none⟩ =
      .ok (generateAccessToken u env now, generateRefreshToken u env now,
        updateById st
          { u with refreshToken := some (generateRefreshToken u env now),
                   updatedAt := now })
    ∧ generateRefreshToken u env now ≠ t1
    ∧ findById
        (updateById st
          { u with refreshToken := some (generateRefreshToken u env now),
                   updatedAt := now }) t1.uid
        = some { u with refreshToken := some (generateRefreshToken u env now),
                        updatedAt := now }
    ∧ refreshAccessToken env
        (updateById st
          { u with refreshToken := some (generateRefreshToken u env now),
                   updatedAt := now }) now2 so2 ⟨some t1, none⟩
        = .error ⟨401, "Refresh token is expired or used"⟩ := by
  have huid : u.id = t1.uid := findById_id_eq hfind
  have hnle : ¬ t1.exp ≤ now := Nat.not_le.mpr hexp
  have hnle2 : ¬ t1.exp ≤ now2 := Nat.not_le.mpr hexp2
  have hv : jwtVerifyRefreshToken t1 env.refreshSecret now =
      .ok ⟨t1.uid⟩ := by
    unfold jwtVerifyRefreshToken
    rw [if_neg (by simp [hsec]), if_neg hnle]
  have hv2 : jwtVerifyRefreshToken t1 env.refreshSecret now2 =
      .ok ⟨t1.uid⟩ := by
    unfold jwtVerifyRefreshToken
    rw [if_neg (by simp [hsec]), if_neg hnle2]
  have h2 : generateRefreshToken u env now ≠ t1 := by
    intro h
    apply hiat
    have := congrArg RToken.iat h
    simpa [generateRefreshToken] using this.symm
  have hfindu : findById st u.id = some u := by rw [huid]; exact hfind
  have hgen : generateAccessAndRefreshToken env st now true u.id =
      .ok (generateAccessToken u env now, generateRefreshToken u env now,
        updateById st
          { u with refreshToken := some (generateRefreshToken u env now),
                   updatedAt := now }) := by
    unfold generateAccessAndRefreshToken
    rw [hfindu]
    simp [saveUser]
  have h1 : refreshAccessToken env st now true ⟨some t1, none⟩ =
      .ok (generateAccessToken u env now, generateRefreshToken u env now,
        updateById st
          { u with refreshToken := some (generateRefreshToken u env now),
                   updatedAt := now }) := by
    unfold refreshAccessToken refreshTryBlock
    simp only [Option.orElse, hv, hfind, hstored, hgen]
    simp
  have h3 : findById
      (updateById st
        { u with refreshToken := some (generateRefreshToken u env now),
                 updatedAt := now }) t1.uid
      = some { u with refreshToken := some (generateRefreshToken u env now),
                      updatedAt := now } :=
    findById_updateById_self _ hfind huid
  have hnet : some t1 ≠ some (generateRefreshToken u env now) :=
    fun h => h2 (Option.some.inj h).symm
  have h4 : refreshAccessToken env
      (updateById st
        { u with refreshToken := some (generateRefreshToken u env now),
                 updatedAt := now }) now2 so2 ⟨some t1, none⟩
      = .error ⟨401, "Refresh token is expired or used"⟩ := by
    unfold refreshAccessToken refreshTryBlock
    simp only [Option.orElse, hv2, h3]
    rw [if_pos (by simpa using hnet)]
  exact ⟨h1, h2, h3, h4⟩

/-- Witness for C1: the rotation property at the example state, refreshing
at time 3 and replaying the consumed token at time 4. -/
theorem refresh_rotation_invalidates_used_token_witness :
    refreshAccessToken envW stW 3 true ⟨some t1W, none⟩ =
      .ok (generateAccessToken uW envW 3, generateRefreshToken uW envW 3,
        updateById stW
          { uW with refreshToken := some (generateRefreshToken uW envW 3),
                    updatedAt := 3 })
    ∧ generateRefreshToken uW envW 3 ≠ t1W
    ∧ findById
        (updateById stW
          { uW with refreshToken := some (generateRefreshToken uW envW 3),
                    updatedAt := 3 }) t1W.uid
        = some { uW with refreshToken := some (generateRefreshToken uW envW 3),
                         updatedAt := 3 }
    ∧ refreshAccessToken envW
        (updateById stW
          { uW with refreshToken := some (generateRefreshToken uW envW 3),
                    updatedAt := 3 }) 4 true ⟨some t1W, none⟩
        = .error ⟨401, "Refresh token is expired or used"⟩ :=
  refresh_rotation_invalidates_used_token envW stW 3 4 true uW t1W
    (by decide) (by decide) (by decide) (by decide) (by decide) (by decide)

/-- C2: Logout clears the stored refresh token.  For every account in the
Authenticated state (stored refresh token non-null), `logoutUser` resets
the stored refresh-token field to null, and afterwards every refresh
token bound to that account — in particular every previously issued one
— fails `refreshAccessToken` with `ApiError(401, "Refresh token is
expired or used")`, even with its signature and expiry still valid. -/
theorem logout_clears_refresh_token_and_invalidates
    (env : Env) (st : Store) (now now2 uid : Nat) (so : Bool)
    (u : Account) (t : RToken)
    (hfind : findById st uid = some u)
    (_hauth : u.refreshToken.isSome = true)
    (htuid : t.uid = uid)
    (hsec : t.secret = env.refreshSecret)
    (hexp2 : now2 < t.exp) :
    logoutUser st now uid =
      (.ok (), updateById st { u with refreshToken := none, updatedAt := now })
    ∧ refreshAccessToken env
        (updateById st { u with refreshToken := none, updatedAt := now })
        now2 so ⟨some t, none⟩
      = .error ⟨401, "Refresh token is expired or used"⟩ := by
  have huid : u.id = uid := findById_id_eq hfind
  have h1 : logoutUser st now uid =
      (.ok (), updateById st { u with refreshToken := none, updatedAt := now }) := by
    unfold logoutUser
    rw [hfind]
  have h3 : findById
      (updateById st { u with refreshToken := none, updatedAt := now }) t.uid
      = some { u with refreshToken := none, updatedAt := now } := by
    rw [htuid]
    exact findById_updateById_self _ hfind huid
  have hv2 : jwtVerifyRefreshToken t env.refreshSecret now2 = .ok ⟨t.uid⟩ := by
    unfold jwtVerifyRefreshToken
    rw [if_neg (by simp [hsec]), if_neg (Nat.not_le.mpr hexp2)]
  have h2 : refreshAccessToken env
      (updateById st { u with refreshToken := none, updatedAt := now })
      now2 so ⟨some t, none⟩
      = .error ⟨401, "Refresh token is expired or used"⟩ := by
    unfold refreshAccessToken refreshTryBlock
    simp only [Option.orElse, hv2, h3]
    rw [if_pos (by simp)]
  exact ⟨h1, h2⟩

/-- Witness for C2 at the example state: logging account 1 out at time 3
and replaying its previously issued refresh token at time 4. -/
theorem logout_clears_refresh_token_and_invalidates_witness :
    logoutUser stW 3 1 =
      (.ok (), updateById stW { uW with refreshToken := none, updatedAt := 3 })
    ∧ refreshAccessToken envW
        (updateById stW { uW with refreshToken := none, updatedAt := 3 })
        4 true ⟨some t1W, none⟩
      = .error ⟨401, "Refresh token is expired or used"⟩ :=
  logout_clears_refresh_token_and_invalidates envW stW 3 4 1 true uW t1W
    (by decide) (by decide) (by decide) (by decide) (by decide)

/-- C3 counterexample: with the stored hash being that of `"pw1"`, a
change-password request presenting the wrong old password `"wrong"`
fails with status code 400 ("Invalid old password"), not with the 401
the claim states. -/
theorem changePassword_wrong_old_gives_400_not_401 :
    (currentPasswordChange stW 5 1 ⟨some "wrong", some "newpw"⟩).1 =
      .error ⟨400, "Invalid old password"⟩
    ∧ errorStatus (currentPasswordChange stW 5 1 ⟨some "wrong", some "newpw"⟩).1
      ≠ some 401 := by
  decide

/-- C3 (amended): for every authenticated account and every request where
`oldPassword` and `newPassword` are present and distinct but
`oldPassword` does not verify against the stored password hash,
`currentPasswordChange` fails with a 400 error `"Invalid old password"`
(the code uses 400 here, not 401) and the store — in particular the
stored password hash — is unchanged; the only store access is the one
account read. -/
theorem changePassword_wrong_old_password_rejected
    (st : Store) (now uid : Nat) (req : ChangePwReq) (u : Account)
    (hold : jsFalsy req.oldPassword = false)
    (hnew : jsFalsy req.newPassword = false)
    (hne : req.oldPassword ≠ req.newPassword)
    (hfind : findById st uid = some u)
    (hpw : bcryptCompare (req.oldPassword.getD "") u.password = false) :
    currentPasswordChange st now uid req =
      (.error ⟨400, "Invalid old password"⟩, st, [.read uid]) := by
  unfold currentPasswordChange
  rw [hold, hnew]
  rw [if_neg (by simp), if_neg hne, hfind]
  simp [hpw]

/-- Witness for the amended C3 at the example state. -/
theorem changePassword_wrong_old_password_rejected_witness :
    currentPasswordChange stW 5 1 ⟨some "wrongpw", some "pw9"⟩ =
      (.error ⟨400, "Invalid old password"⟩, stW, [.read 1]) :=
  changePassword_wrong_old_password_rejected stW 5 1 ⟨some "wrongpw", some "pw9"⟩
    uW (by decide) (by decide) (by decide) (by decide) (by decide)

/-- C4 counterexample: a refresh call at the example state that passes
the signature, account-lookup, and stored-token equality checks but
whose store write fails produces `ApiError(401, "Something went wrong
while generating tokens")` — status code 401, not the 500 the claim
states. -/
theorem refresh_store_failure_gives_401_not_500 :
    refreshAccessToken envW stW 5 false ⟨some t1W, none⟩ =
      .error ⟨401, "Something went wrong while generating tokens"⟩
    ∧ errorStatus (refreshAccessToken envW stW 5 false ⟨some t1W, none⟩)
      ≠ some 500 := by
  decide

/-- C4 (amended): for every refresh call that passes the signature,
account-lookup, and stored-token equality checks but whose store write
fails, `generateAccessAndRefreshToken` raises the internal
`ApiError(500, "Something went wrong while generating tokens")`, but
`refreshAccessToken`'s catch-all rewraps it, so the error the refresh
call surfaces carries status code 401 with that internal message, not
500. -/
theorem refresh_store_failure_wrapped_as_401
    (env : Env) (st : Store) (now : Nat) (u : Account) (t1 : RToken)
    (hfind : findById st t1.uid = some u)
    (hstored : u.refreshToken = some t1)
    (hsec : t1.secret = env.refreshSecret)
    (hexp : now < t1.exp) :
    generateAccessAndRefreshToken env st now false u.id =
      .error ⟨500, "Something went wrong while generating tokens"⟩
    ∧ refreshAccessToken env st now false ⟨some t1, none⟩ =
      .error ⟨401, "Something went wrong while generating tokens"⟩ := by
  have huid : u.id = t1.uid := findById_id_eq hfind
  have hfindu : findById st u.id = some u := by rw [huid]; exact hfind
  have hv : jwtVerifyRefreshToken t1 env.refreshSecret now = .ok ⟨t1.uid⟩ := by
    unfold jwtVerifyRefreshToken
    rw [if_neg (by simp [hsec]), if_neg (Nat.not_le.mpr hexp)]
  have hgen : generateAccessAndRefreshToken env st now false u.id =
      .error ⟨500, "Something went wrong while generating tokens"⟩ := by
    unfold generateAccessAndRefreshToken
    rw [hfindu]
    simp
  have h2 : refreshAccessToken env st now false ⟨some t1, none⟩ =
      .error ⟨401, "Something went wrong while generating tokens"⟩ := by
    unfold refreshAccessToken refreshTryBlock
    simp only [Option.orElse, hv, hfind, hstored, hgen]
    simp
  exact ⟨hgen, h2⟩

/-- Witness for the amended C4 at the example state. -/
theorem refresh_store_failure_wrapped_as_401_witness :
    generateAccessAndRefreshToken envW stW 5 false uW.id =
      .error ⟨500, "Something went wrong while generating tokens"⟩
    ∧ refreshAccessToken envW stW 5 false ⟨some t1W, none⟩ =
      .error ⟨401, "Something went wrong while generating tokens"⟩ :=
  refresh_store_failure_wrapped_as_401 envW stW 5 uW t1W
    (by decide) (by decide) (by decide) (by decide)

/-- C5: a failed login leaves the account's stored refresh token
unchanged.  For every login request that passes input validation, finds
an account, and presents a password that does not verify, `loginUser`
returns `ApiError(401, "Incorrect password")` and the post-call store is
exactly the pre-call store (in particular the stored refresh token is
untouched); no success payload — hence no cookie — is produced. -/
theorem failed_login_leaves_store_unchanged
    (env : Env) (st : Store) (now : Nat) (so : Bool) (req : LoginReq)
    (u : Account)
    (hval : ((jsFalsy req.username && jsFalsy req.email)
              || jsFalsy req.password) = false)
    (hfind : findUserByUsernameOrEmail st req.username req.email = some u)
    (hpw : bcryptCompare (req.password.getD "") u.password = false) :
    loginUser env st now so req = (.error ⟨401, "Incorrect password"⟩, st) := by
  unfold loginUser
  rw [hval]
  rw [if_neg (by simp), hfind]
  simp [hpw]

/-- Witness for C5 at the example state: wrong password for `"u1"`. -/
theorem failed_login_leaves_store_unchanged_witness :
    loginUser envW stW 3 true ⟨none, some "u1", some "wrongpw"⟩ =
      (.error ⟨401, "Incorrect password"⟩, stW) :=
  failed_login_leaves_store_unchanged envW stW 3 true
    ⟨none, some "u1", some "wrongpw"⟩ uW (by decide) (by decide) (by decide)

/-- C6: `currentPasswordChange` validates its input before touching the
store.  For every request in which `oldPassword` or `newPassword` is
missing/empty or the two are equal, the call fails with a 400 error, the
store is unchanged, and the trace of Credential Store accesses is empty
(no read and no write was performed). -/
theorem changePassword_validates_before_store
    (st : Store) (now uid : Nat) (req : ChangePwReq)
    (h : jsFalsy req.oldPassword = true ∨ jsFalsy req.newPassword = true
         ∨ req.oldPassword = req.newPassword) :
    errorStatus (currentPasswordChange st now uid req).1 = some 400
    ∧ (currentPasswordChange st now uid req).2.1 = st
    ∧ (currentPasswordChange st now uid req).2.2 = [] := by
  unfold currentPasswordChange
  by_cases hc : (jsFalsy req.oldPassword || jsFalsy req.newPassword) = true
  · simp [hc, errorStatus]
  · have hcf : (jsFalsy req.oldPassword || jsFalsy req.newPassword) = false := by
      simpa using hc
    have heq : req.oldPassword = req.newPassword := by
      rcases h with h | h | h
      · rw [h] at hcf; simp at hcf
      · rw [h] at hcf; simp at hcf
      · exact h
    cases hnew : jsFalsy req.newPassword <;>
      simp [hcf, heq, hnew, errorStatus]

/-- Witness for C6: old and new password equal (`"pw1"`/`"pw1"`). -/
theorem changePassword_validates_before_store_witness :
    errorStatus (currentPasswordChange stW 3 1 ⟨some "pw1", some "pw1"⟩).1
      = some 400
    ∧ (currentPasswordChange stW 3 1 ⟨some "pw1", some "pw1"⟩).2.1 = stW
    ∧ (currentPasswordChange stW 3 1 ⟨some "pw1", some "pw1"⟩).2.2 = [] :=
  changePassword_validates_before_store stW 3 1 ⟨some "pw1", some "pw1"⟩
    (by decide)

/-- C7: the public projection excludes secrets.  For every successful
login, the field names of the returned user object contain neither
`"password"` nor `"refreshToken"`, and for every request `verifyJWT`
admits, the identity `getCurrentUser` returns likewise contains neither
field. -/
theorem public_projection_excludes_secrets
    (env : Env) (st : Store) (now : Nat) (so : Bool) (lreq : LoginReq)
    (dec : String → Except String AccessPayload) (st2 : Store)
    (areq : AuthReq) (r : LoginOk) (stx : Store) (vr : AuthedRequest)
    (hl : loginUser env st now so lreq = (.ok r, stx))
    (hv : verifyJWT dec st2 areq = .ok vr) :
    ("password" ∉ loginUserKeys env st now so lreq
      ∧ "refreshToken" ∉ loginUserKeys env st now so lreq)
    ∧ ("password" ∉ currentUserKeys dec st2 areq
      ∧ "refreshToken" ∉ currentUserKeys dec st2 areq) := by
  have hpw : "password" ∈ selectExcludedFields "-password -refreshToken" := by
    decide
  have hrt : "refreshToken" ∈ selectExcludedFields "-password -refreshToken" := by
    decide
  have hl1 : (loginUser env st now so lreq).1 = .ok r := by rw [hl]
  have hkeysl : loginUserKeys env st now so lreq = r.user.map Prod.fst := by
    unfold loginUserKeys
    rw [hl1]
  have hkey : ∀ k, k ∈ selectExcludedFields "-password -refreshToken" →
      k ∉ r.user.map Prod.fst := by
    intro k hk
    simp only [loginUser] at hl
    split at hl
    · simp at hl
    · split at hl
      · simp at hl
      · split at hl
        · simp at hl
        · split at hl
          · simp at hl
          · rw [Prod.mk.injEq] at hl
            obtain ⟨hok, -⟩ := hl
            have hrec := Except.ok.inj hok
            rw [← hrec]
            split
            · exact selectDoc_not_mem_excluded _ _ _ hk
            · simp
  have hck : currentUserKeys dec st2 areq = vr.user.map Prod.fst := by
    unfold currentUserKeys
    rw [hv]
    simp [getCurrentUser, mkApiResponse]
  have hkey2 : ∀ k, k ∈ selectExcludedFields "-password -refreshToken" →
      k ∉ vr.user.map Prod.fst := by
    intro k hk
    unfold verifyJWT at hv
    split at hv
    · simp at hv
    · rename_i r0 heq0
      have hvr := Except.ok.inj hv
      unfold verifyJWTTryBlock at heq0
      split at heq0
      · simp at heq0
      · split at heq0
        · simp at heq0
        · split at heq0
          · simp at heq0
          · split at heq0
            · simp at heq0
            · have hr0 := Except.ok.inj heq0
              rw [← hvr, ← hr0]
              exact selectDoc_not_mem_excluded _ _ _ hk
  refine ⟨⟨?_, ?_⟩, ?_, ?_⟩
  · rw [hkeysl]; exact hkey _ hpw
  · rw [hkeysl]; exact hkey _ hrt
  · rw [hck]; exact hkey2 _ hpw
  · rw [hck]; exact hkey2 _ hrt

/-- Witness for C7: a successful login for `"u1"` and a request admitted
by the gate with credential `"tok1"`. -/
theorem public_projection_excludes_secrets_witness :
    ("password" ∉ loginUserKeys envW stW 3 true ⟨none, some "u1", some "pw1"⟩
      ∧ "refreshToken" ∉
          loginUserKeys envW stW 3 true ⟨none, some "u1", some "pw1"⟩)
    ∧ ("password" ∉ currentUserKeys decW stW ⟨some "tok1", none⟩
      ∧ "refreshToken" ∉ currentUserKeys decW stW ⟨some "tok1", none⟩) :=
  public_projection_excludes_secrets envW stW 3 true
    ⟨none, some "u1", some "pw1"⟩ decW stW ⟨some "tok1", none⟩ _ _ _ rfl rfl

/-- C8: the Request Authenticator extracts the bearer credential from the
access-token cookie or from the `Authorization: Bearer` header, the
cookie taking precedence when both are present (first conjunct, with the
header also present), falling back to the header with its `"Bearer "`
marker stripped when the cookie is absent or empty, and `verifyJWT`
rejects the request with `ApiError(401, "Unauthorized request")` when
neither credential is present. -/
theorem request_authenticator_extraction
    (dec : String → Except String AccessPayload) (st : Store)
    (c t h : String) (hc : ¬ c = "") :
    extractToken ⟨some c, some h⟩ = some c
    ∧ extractToken ⟨some "", some ("Bearer " ++ t)⟩ = some t
    ∧ extractToken ⟨none, some ("Bearer " ++ t)⟩ = some t
    ∧ verifyJWT dec st ⟨none, none⟩ = .error ⟨401, "Unauthorized request"⟩
    ∧ verifyJWT dec st ⟨some "", none⟩ =
        .error ⟨401, "Unauthorized request"⟩ := by
  refine ⟨?_, ?_, ?_, rfl, rfl⟩
  · simp [extractToken, hc]
  · simp [extractToken, jsReplaceFirst_strips_bearer]
  · simp [extractToken, jsReplaceFirst_strips_bearer]

/-- Witness for C8 with cookie `"tok1"`, header `"Bearer tokH"`. -/
theorem request_authenticator_extraction_witness :
    extractToken ⟨some "tok1", some "Bearer tokH"⟩ = some "tok1"
    ∧ extractToken ⟨some "", some ("Bearer " ++ "tokH")⟩ = some "tokH"
    ∧ extractToken ⟨none, some ("Bearer " ++ "tokH")⟩ = some "tokH"
    ∧ verifyJWT decW stW ⟨none, none⟩ =
        .error ⟨401, "Unauthorized request"⟩
    ∧ verifyJWT decW stW ⟨some "", none⟩ =
        .error ⟨401, "Unauthorized request"⟩ :=
  request_authenticator_extraction decW stW "tok1" "tokH" "Bearer tokH"
    (by decide)

/-- C9: persisting the refresh token is login's only store mutation.  For
every successful login, the post-call store is exactly the pre-call
store with the one matching account replaced by a copy whose
refresh-token field holds the newly minted token and whose update
timestamp is bumped; the lookup of the updated account returns that
copy, and its password hash, username, email, display name, avatar and
cover references equal the pre-call ones. -/
theorem login_only_mutation_is_refresh_token
    (env : Env) (st : Store) (now : Nat) (req : LoginReq) (u : Account)
    (hval : ((jsFalsy req.username && jsFalsy req.email)
              || jsFalsy req.password) = false)
    (hfind : findUserByUsernameOrEmail st req.username req.email = some u)
    (hid : findById st u.id = some u)
    (hpw : bcryptCompare (req.password.getD "") u.password = true) :
    (loginUser env st now true req).2 =
      updateById st
        { u with refreshToken := some (generateRefreshToken u env now),
                 updatedAt := now }
    ∧ findById (loginUser env st now true req).2 u.id =
      some { u with refreshToken := some (generateRefreshToken u env now),
                    updatedAt := now }
    ∧ ({ u with refreshToken := some (generateRefreshToken u env now),
                updatedAt := now } : Account).password = u.password
    ∧ ({ u with refreshToken := some (generateRefreshToken u env now),
                updatedAt := now } : Account).username = u.username
    ∧ ({ u with refreshToken := some (generateRefreshToken u env now),
                updatedAt := now } : Account).email = u.email
    ∧ ({ u with refreshToken := some (generateRefreshToken u env now),
                updatedAt := now } : Account).fullName = u.fullName
    ∧ ({ u with refreshToken := some (generateRefreshToken u env now),
                updatedAt := now } : Account).avatar = u.avatar
    ∧ ({ u with refreshToken := some (generateRefreshToken u env now),
                updatedAt := now } : Account).coverImage = u.coverImage := by
  have hgen : generateAccessAndRefreshToken env st now true u.id =
      .ok (generateAccessToken u env now, generateRefreshToken u env now,
        updateById st
          { u with refreshToken := some (generateRefreshToken u env now),
                   updatedAt := now }) := by
    unfold generateAccessAndRefreshToken
    rw [hid]
    simp [saveUser]
  have hst : (loginUser env st now true req).2 =
      updateById st
        { u with refreshToken := some (generateRefreshToken u env now),
                 updatedAt := now } := by
    unfold loginUser
    rw [hval]
    rw [if_neg (by simp), hfind]
    simp [hpw, hgen]
  refine ⟨hst, ?_, rfl, rfl, rfl, rfl, rfl, rfl⟩
  rw [hst]
  exact findById_updateById_self _ hid rfl

/-- Witness for C9: successful login for `"u1"` at the example state. -/
theorem login_only_mutation_is_refresh_token_witness :
    (loginUser envW stW 3 true ⟨none, some "u1", some "pw1"⟩).2 =
      updateById stW
        { uW with refreshToken := some (generateRefreshToken uW envW 3),
                  updatedAt := 3 }
    ∧ findById (loginUser envW stW 3 true ⟨none, some "u1", some "pw1"⟩).2 uW.id =
      some { uW with refreshToken := some (generateRefreshToken uW envW 3),
                     updatedAt := 3 }
    ∧ ({ uW with refreshToken := some (generateRefreshToken uW envW 3),
                 updatedAt := 3 } : Account).password = uW.password
    ∧ ({ uW with refreshToken := some (generateRefreshToken uW envW 3),
                 updatedAt := 3 } : Account).username = uW.username
    ∧ ({ uW with refreshToken := some (generateRefreshToken uW envW 3),
                 updatedAt := 3 } : Account).email = uW.email
    ∧ ({ uW with refreshToken := some (generateRefreshToken uW envW 3),
                 updatedAt := 3 } : Account).fullName = uW.fullName
    ∧ ({ uW with refreshToken := some (generateRefreshToken uW envW 3),
                 updatedAt := 3 } : Account).avatar = uW.avatar
    ∧ ({ uW with refreshToken := some (generateRefreshToken uW envW 3),
                 updatedAt := 3 } : Account).coverImage = uW.coverImage :=
  login_only_mutation_is_refresh_token envW stW 3
    ⟨none, some "u1", some "pw1"⟩ uW (by decide) (by decide) (by decide)
    (by decide)

/-- C10 (implicit): `registerUser`'s required-fields check only rejects
fields that are present and empty after trimming.  For every request in
which some required field (`fullName`, `email`, `username`, `password`)
is entirely absent — and the check's `field?.trim() === ""` test
accordingly evaluates to false on every field — the
`ApiError(400, "All fields are required")` is NOT raised: the call
proceeds to the duplicate-account lookup and, when that lookup finds no
existing account, to the account-creation attempt. -/
theorem register_absent_fields_pass_validation
    (st : Store) (cloud : String → Option String) (now : Nat)
    (req : RegisterReq)
    (_habsent : req.fullName = none ∨ req.email = none ∨ req.username = none
               ∨ req.password = none)
    (hcheck : ([req.fullName, req.email, req.username, req.password].any
               fieldEmptyAfterTrim) = false) :
    (registerUser st cloud now req).1 ≠ .error ⟨400, "All fields are required"⟩
    ∧ RegStep.dupLookup ∈ (registerUser st cloud now req).2.2
    ∧ (findExistingUser st req.email req.username = none →
        RegStep.createAttempt ∈ (registerUser st cloud now req).2.2) := by
  have hc : ¬(([req.fullName, req.email, req.username, req.password].any
      fieldEmptyAfterTrim) = true) := by simp [hcheck]
  unfold registerUser
  rw [if_neg hc]
  refine ⟨?_, ?_, fun h => ?_⟩
  · (repeat' split) <;> intro hcontra <;>
      first
        | exact createUserResult_ne_all_fields_error _ _ hcontra
        | simp at hcontra
  · (repeat' split) <;> simp
  · simp only [h]
    (repeat' split) <;> simp

/-- Witness for C10: a registration request whose `username` field is
entirely absent, against the empty store (no duplicate). -/
theorem register_absent_fields_pass_validation_witness :
    (registerUser [] cloudW 3 regReqW).1 ≠
      .error ⟨400, "All fields are required"⟩
    ∧ RegStep.dupLookup ∈ (registerUser [] cloudW 3 regReqW).2.2
    ∧ (findExistingUser [] regReqW.email regReqW.username = none →
        RegStep.createAttempt ∈ (registerUser [] cloudW 3 regReqW).2.2) :=
  register_absent_fields_pass_validation [] cloudW 3 regReqW
    (by decide) (by decide)
